import Mathlib

/-!
A shallow embedding of the `promise` Go package (promise.go, await.go) and
proofs about it.  Machine-level concurrency is modelled by making the
goroutine launched by `New` an explicit list of atomic events (field writes,
the channel close, a re-raised panic); a prefix of that list is a possible
point at which a concurrent observer may run.  Go `error` values are modelled
by `GoError` (with `Option GoError` for a nilable error), contexts by a
record of whether their Done channel fires and which error `ctx.Err()`
reports, and the `select` in `Await` by an explicit boolean resolving the
nondeterministic choice when both branches are ready.
-/

namespace PromiseSpec

/-- Go error values relevant to this library: the two context errors,
the distinguished invalid-state error, and arbitrary user errors. -/
inductive GoError where
  | canceled
  | deadlineExceeded
  | invalidState
  | user (s : String)
deriving DecidableEq

/-- Modelled from the spec: `ErrInvalidState` is returned by `Await`'s
defensive branch but its declaration (an errors file) is not among the
sources at hand; the spec describes it as "a distinguished `invalid state`
error" surfaced when the completion signal fired but the state is neither
Fulfilled nor Rejected. -/
def ErrInvalidState : GoError := GoError.invalidState

/-- The internal `state` of a promise (promise.go lines 21-30):
pending, fulfilled, rejected. -/
inductive State where
  | pending
  | fulfilled
  | rejected
deriving DecidableEq

/-- The completion channel `ch : chan struct\x7b\x7d` can be nil (as left by the
pre-resolved constructors), allocated and open (as made by `New`), or closed.
A receive from a closed channel is immediately ready; from an open channel it
becomes ready only once the channel is closed; from a nil channel it is never
ready. -/
inductive Chan where
  | nil
  | opened
  | closed
deriving DecidableEq

/-- Whether a receive from the channel is ready right now. -/
def chanReady : Chan → Bool
  | Chan.closed => true
  | _ => false

/-- The `Promise[T]` struct (promise.go lines 13-18). -/
structure Promise (T : Type) where
  state : State
  ch : Chan
  result : T
  err : Option GoError
deriving DecidableEq

/-- A Go context as observed by `Await`: whether its Done channel (ever)
fires, and the error `ctx.Err()` reports once it has. -/
structure Context where
  done : Bool
  errVal : GoError
deriving DecidableEq

/-- `context.Background()`: never done. -/
def background : Context := { done := false, errVal := GoError.canceled }

/-- The payload of a Go `panic`: either an error-typed value or a
non-error-typed one (represented by a string). -/
inductive PanicPayload where
  | errValue (e : GoError)
  | nonError (d : String)
deriving DecidableEq

/-- The possible behaviours of one invocation of a work unit
`f : Call[T]`: return a `(value, error-or-nil)` pair, or panic. -/
inductive CallOutcome (T : Type) where
  | ret (v : T) (err : Option GoError)
  | panics (payload : PanicPayload)
deriving DecidableEq

/-- One atomic action of the goroutine launched by `New`. -/
inductive Event (T : Type) where
  | setState (s : State)
  | setResult (v : T)
  | setErr (e : GoError)
  | closeCh
  | repanic (d : String)
deriving DecidableEq

/-- The sequence of atomic actions the goroutine body of `New` performs
(promise.go lines 59-86), read off the source:
the function body first, then the deferred cleanup, which closes the
channel FIRST and only then calls `recover()`.
* `f` returns `(v, nil)`: the body sets state to fulfilled, stores the
  result, returns; the deferred cleanup closes the channel (recover is nil).
* `f` returns `(x, err)`, err non-nil: the body sets state to rejected,
  stores err, returns early (the value x is never stored); the deferred
  cleanup closes the channel.
* `f` panics with an error-typed value: the body writes nothing; the
  deferred cleanup closes the channel, then recovers, then sets state to
  rejected and stores the error.
* `f` panics with a non-error-typed value: the deferred cleanup closes the
  channel, then recovers and re-raises the payload unchanged. -/
def goroutineTrace {T : Type} : CallOutcome T → List (Event T)
  | CallOutcome.ret v none =>
      [Event.setState State.fulfilled, Event.setResult v, Event.closeCh]
  | CallOutcome.ret _ (some e) =>
      [Event.setState State.rejected, Event.setErr e, Event.closeCh]
  | CallOutcome.panics (PanicPayload.errValue e) =>
      [Event.closeCh, Event.setState State.rejected, Event.setErr e]
  | CallOutcome.panics (PanicPayload.nonError d) =>
      [Event.closeCh, Event.repanic d]

/-- Effect of one atomic action on the promise struct. -/
def applyEvent {T : Type} (p : Promise T) : Event T → Promise T
  | Event.setState s => { p with state := s }
  | Event.setResult v => { p with result := v }
  | Event.setErr e => { p with err := some e }
  | Event.closeCh => { p with ch := Chan.closed }
  | Event.repanic _ => p

/-- The promise after a sequence of atomic actions. -/
def runTrace {T : Type} (p : Promise T) (es : List (Event T)) : Promise T :=
  es.foldl applyEvent p

/-- The promise as allocated by `New` before its goroutine runs
(promise.go lines 55-58): pending state, a fresh open channel, and Go zero
values in the `result` and `err` fields. -/
def newInitial (T : Type) [Inhabited T] : Promise T :=
  { state := State.pending, ch := Chan.opened, result := default, err := none }

/-- The promise built by `New` once its goroutine has run to completion,
for a work unit behaving as `out`. -/
def newFinal {T : Type} [Inhabited T] (out : CallOutcome T) : Promise T :=
  runTrace (newInitial T) (goroutineTrace out)

/-- The payload the goroutine re-raises upward, if any: only a panic with a
non-error-typed payload is re-raised (promise.go lines 72-73). -/
def goroutineRepanics {T : Type} : CallOutcome T → Option String
  | CallOutcome.panics (PanicPayload.nonError d) => some d
  | _ => none

/-- `Resolved` (promise.go lines 90-97): terminal fulfilled promise with an
explicitly nil channel. -/
def Resolved {T : Type} (v : T) : Promise T :=
  { state := State.fulfilled, ch := Chan.nil, result := v, err := none }

/-- `Rejected` (promise.go lines 99-104): terminal rejected promise; the
`ch` and `result` fields are left at their Go zero values (nil channel,
zero value of T). -/
def Rejected (T : Type) [Inhabited T] (e : GoError) : Promise T :=
  { state := State.rejected, ch := Chan.nil, result := default, err := some e }

/-- The outcome of one `Await` call: either it returns a `(T, error)` pair,
or its `select` never fires and the call blocks forever. -/
inductive AwaitResult (T : Type) where
  | returns (v : T) (e : Option GoError)
  | blocks
deriving DecidableEq

/-- The `switch p.state` after the `select` in `Await` (await.go lines
10-17): fulfilled yields `(p.result, nil)`; rejected yields
`(p.result, p.err)`; any other state yields `(p.result, ErrInvalidState)`. -/
def awaitSwitch {T : Type} (p : Promise T) : T × Option GoError :=
  match p.state with
  | State.fulfilled => (p.result, none)
  | State.rejected => (p.result, p.err)
  | State.pending => (p.result, some ErrInvalidState)

/-- `Await` (await.go lines 7-18) observing the promise `p`.  The `select`
races a receive on `p.ch` against `ctx.Done()`; when both are ready the
choice is nondeterministic and `chanWins` records which branch the scheduler
takes.  If the channel branch fires, the state switch runs; if the
cancellation branch fires, `Await` returns the zero value of T and
`ctx.Err()`; if neither branch is ever ready the select blocks forever. -/
def Await {T : Type} [Inhabited T] (ctx : Context) (p : Promise T)
    (chanWins : Bool) : AwaitResult T :=
  if chanReady p.ch && (!ctx.done || chanWins) then
    AwaitResult.returns (awaitSwitch p).1 (awaitSwitch p).2
  else if ctx.done then
    AwaitResult.returns default (some ctx.errVal)
  else
    AwaitResult.blocks

/-- Event classifier: a write to one of the terminal fields
(state, result, err). -/
def Event.isWrite {T : Type} : Event T → Bool
  | Event.setState _ => true
  | Event.setResult _ => true
  | Event.setErr _ => true
  | _ => false

/-- Event classifier: the channel close (the completion broadcast). -/
def Event.isClose {T : Type} : Event T → Bool
  | Event.closeCh => true
  | _ => false

/-- Event classifier: a re-raised panic. -/
def Event.isRepanic {T : Type} : Event T → Bool
  | Event.repanic _ => true
  | _ => false

/-- Whether the completion broadcast happens only after all terminal-field
writes: no write event occurs after the first close event. -/
def closeAfterWrites {T : Type} (es : List (Event T)) : Bool :=
  match es.dropWhile (fun e => ! Event.isClose e) with
  | [] => true
  | _ :: rest => rest.all (fun e => ! Event.isWrite e)

/-- The promise's state after each prefix of the goroutine's execution. -/
def statesAlong (T : Type) [Inhabited T] (out : CallOutcome T) : List State :=
  (List.range ((goroutineTrace out).length + 1)).map
    (fun n => (runTrace (newInitial T) ((goroutineTrace out).take n)).state)

/-- Once a state sequence leaves pending it never changes again
(helper for the main monotonicity check, carrying the previous state). -/
def monotoneFrom : State → List State → Bool
  | _, [] => true
  | s, b :: rest =>
      (if s = State.pending then true else decide (b = s)) && monotoneFrom b rest

/-- A state sequence is monotone: any state other than pending persists
forever once reached. -/
def monotone : List State → Bool
  | [] => true
  | a :: rest => monotoneFrom a rest

/-- Any element of a prefix of a list satisfying a boolean predicate gives an
element of the whole list satisfying it. -/
theorem any_of_take {α : Type} (f : α → Bool) (l : List α) (n : Nat)
    (h : (l.take n).any f = true) : l.any f = true := by
  rw [List.any_eq_true] at h ⊢
  obtain ⟨x, hx, hfx⟩ := h
  exact ⟨x, List.take_subset n l hx, hfx⟩

/-- Claim C1, evaluated on the code at a concrete input: with a background
(never-cancelled) context, Await on Resolved 1 and on Rejected blocks
forever — a receive from the nil channel left by the pre-resolved
constructors is never ready — whichever way the select's nondeterminism is
resolved, instead of returning the stored outcome immediately. -/
theorem c1_resolved_await_blocks :
    Await background (Resolved (1 : Nat)) true = AwaitResult.blocks ∧
    Await background (Resolved (1 : Nat)) false = AwaitResult.blocks ∧
    Await background (Rejected Nat (GoError.user "boom")) true = AwaitResult.blocks ∧
    Await background (Rejected Nat (GoError.user "boom")) false = AwaitResult.blocks := by
  decide

/-- Claim C2, evaluated on the code at a concrete input: when the work unit
panics with an error, the goroutine's completion broadcast (the channel
close) precedes the writes of the rejected state and error; after that first
atomic step a waiter observes a closed channel with state still pending, and
Await returns ErrInvalidState — the defensive branch is reachable.  For the
two normal-return outcomes the broadcast does come after the writes. -/
theorem c2_broadcast_precedes_writes_on_panic :
    closeAfterWrites (goroutineTrace (T := Nat)
      (CallOutcome.panics (PanicPayload.errValue (GoError.user "boom")))) = false ∧
    (runTrace (newInitial Nat) ((goroutineTrace
      (CallOutcome.panics (PanicPayload.errValue (GoError.user "boom")))).take 1)).ch
      = Chan.closed ∧
    (runTrace (newInitial Nat) ((goroutineTrace
      (CallOutcome.panics (PanicPayload.errValue (GoError.user "boom")))).take 1)).state
      = State.pending ∧
    Await background (runTrace (newInitial Nat) ((goroutineTrace
      (CallOutcome.panics (PanicPayload.errValue (GoError.user "boom")))).take 1)) true
      = AwaitResult.returns 0 (some ErrInvalidState) ∧
    closeAfterWrites (goroutineTrace (T := Nat) (CallOutcome.ret 1 none)) = true ∧
    closeAfterWrites (goroutineTrace (T := Nat)
      (CallOutcome.ret 0 (some (GoError.user "e")))) = true := by
  decide

/-- Claim C3: a work unit returning (v, nil) yields a promise whose final
state is fulfilled with v stored, and any Await whose select is not won by a
prior cancellation returns (v, nil). -/
theorem c3_fulfilled_stores_and_returns {T : Type} [Inhabited T] (v : T)
    (ctx : Context) (b : Bool) (h : ctx.done = false ∨ b = true) :
    (newFinal (CallOutcome.ret v none)).state = State.fulfilled ∧
    (newFinal (CallOutcome.ret v none)).result = v ∧
    Await ctx (newFinal (CallOutcome.ret v none)) b = AwaitResult.returns v none := by
  refine ⟨rfl, rfl, ?_⟩
  rcases h with h | h <;>
    simp [Await, newFinal, runTrace, goroutineTrace, newInitial, applyEvent,
      chanReady, awaitSwitch, h]

/-- Concrete instance of the fulfilled case. -/
theorem c3_fulfilled_witness :
    Await background (newFinal (CallOutcome.ret (7 : Nat) none)) false
      = AwaitResult.returns 7 none :=
  (c3_fulfilled_stores_and_returns 7 background false (Or.inl rfl)).2.2

/-- Claim C4: a work unit returning (x, e) with e non-nil yields a promise
whose final state is rejected with e stored verbatim and the result field
left at the zero value (x is discarded), and any Await whose select is not
won by a prior cancellation returns (zero value, e). -/
theorem c4_rejected_discards_value {T : Type} [Inhabited T] (x : T)
    (e : GoError) (ctx : Context) (b : Bool) (h : ctx.done = false ∨ b = true) :
    (newFinal (CallOutcome.ret x (some e))).state = State.rejected ∧
    (newFinal (CallOutcome.ret x (some e))).err = some e ∧
    (newFinal (CallOutcome.ret x (some e))).result = (default : T) ∧
    Await ctx (newFinal (CallOutcome.ret x (some e))) b
      = AwaitResult.returns default (some e) := by
  refine ⟨rfl, rfl, rfl, ?_⟩
  rcases h with h | h <;>
    simp [Await, newFinal, runTrace, goroutineTrace, newInitial, applyEvent,
      chanReady, awaitSwitch, h]

/-- Concrete instance of the rejected case. -/
theorem c4_rejected_witness :
    Await background (newFinal (CallOutcome.ret (9 : Nat)
      (some (GoError.user "boom")))) false
      = AwaitResult.returns 0 (some (GoError.user "boom")) :=
  (c4_rejected_discards_value 9 (GoError.user "boom") background false
    (Or.inl rfl)).2.2.2

/-- Claim C5, evaluated on the code at a concrete input: for a work unit
panicking with the error "boom", the channel is closed before the state and
error writes, so a waiter racing the deferred cleanup observes channel-ready
snapshots in which Await returns (0, ErrInvalidState) (after the close,
before the state write) or even the spurious success (0, nil) (after the
state write, before the error write) — not the claimed (0, boom).  The
explicit error return has no such window: none of its proper prefixes is
channel-ready, and its settled promise — which coincides with the settled
promise of the panic path — returns (0, boom). -/
theorem c5_panic_racing_await_diverges :
    Await background (runTrace (newInitial Nat) ((goroutineTrace
      (CallOutcome.panics (PanicPayload.errValue (GoError.user "boom")))).take 1))
      true = AwaitResult.returns 0 (some ErrInvalidState) ∧
    Await background (runTrace (newInitial Nat) ((goroutineTrace
      (CallOutcome.panics (PanicPayload.errValue (GoError.user "boom")))).take 2))
      true = AwaitResult.returns 0 none ∧
    Await background (newFinal (CallOutcome.panics
      (PanicPayload.errValue (GoError.user "boom")))) true
      = AwaitResult.returns 0 (some (GoError.user "boom")) ∧
    newFinal (T := Nat)
      (CallOutcome.panics (PanicPayload.errValue (GoError.user "boom")))
      = newFinal (CallOutcome.ret 0 (some (GoError.user "boom"))) ∧
    chanReady (runTrace (newInitial Nat) ((goroutineTrace
      (CallOutcome.ret (0 : Nat) (some (GoError.user "boom")))).take 0)).ch
      = false ∧
    chanReady (runTrace (newInitial Nat) ((goroutineTrace
      (CallOutcome.ret (0 : Nat) (some (GoError.user "boom")))).take 1)).ch
      = false ∧
    chanReady (runTrace (newInitial Nat) ((goroutineTrace
      (CallOutcome.ret (0 : Nat) (some (GoError.user "boom")))).take 2)).ch
      = false ∧
    Await background (runTrace (newInitial Nat) ((goroutineTrace
      (CallOutcome.ret (0 : Nat) (some (GoError.user "boom")))).take 3)) true
      = AwaitResult.returns 0 (some (GoError.user "boom")) := by
  decide

/-- Claim C6: a work unit panicking with a non-error-typed payload has that
payload re-raised unchanged; at every point of the goroutine's execution the
promise's state is still pending (it never transitions to fulfilled or
rejected), and every possible Await on it either blocks, returns the zero
value with ErrInvalidState, or returns the zero value with the context's own
error — the panic payload is never returned as a value. -/
theorem c6_nonerror_panic_not_absorbed {T : Type} [Inhabited T] (d : String) :
    goroutineRepanics (T := T) (CallOutcome.panics (PanicPayload.nonError d))
      = some d ∧
    (∀ n : Nat, (runTrace (newInitial T)
      ((goroutineTrace (CallOutcome.panics (PanicPayload.nonError d))).take n)).state
      = State.pending) ∧
    (∀ (n : Nat) (ctx : Context) (b : Bool),
      Await ctx (runTrace (newInitial T)
        ((goroutineTrace (CallOutcome.panics (PanicPayload.nonError d))).take n)) b
        = AwaitResult.blocks ∨
      Await ctx (runTrace (newInitial T)
        ((goroutineTrace (CallOutcome.panics (PanicPayload.nonError d))).take n)) b
        = AwaitResult.returns default (some ErrInvalidState) ∨
      Await ctx (runTrace (newInitial T)
        ((goroutineTrace (CallOutcome.panics (PanicPayload.nonError d))).take n)) b
        = AwaitResult.returns default (some ctx.errVal)) := by
  refine ⟨rfl, ?_, ?_⟩
  · intro n
    match n with
    | 0 => rfl
    | 1 => rfl
    | (m+2) => cases m <;> rfl
  · intro n ctx b
    obtain ⟨dn, ev⟩ := ctx
    match n, dn, b with
    | 0, false, _ => exact Or.inl rfl
    | 0, true, _ => exact Or.inr (Or.inr rfl)
    | 1, false, _ => exact Or.inr (Or.inl rfl)
    | 1, true, true => exact Or.inr (Or.inl rfl)
    | 1, true, false => exact Or.inr (Or.inr rfl)
    | (m+2), false, _ => cases m <;> exact Or.inr (Or.inl rfl)
    | (m+2), true, true => cases m <;> exact Or.inr (Or.inl rfl)
    | (m+2), true, false => cases m <;> exact Or.inr (Or.inr rfl)

/-- Claim C7: when the caller's own cancellation is ready and the promise's
completion signal is not, Await returns the zero value and the context's own
error, for any promise whatsoever. -/
theorem c7_cancellation_first {T : Type} [Inhabited T] (ctx : Context)
    (p : Promise T) (b : Bool) (hd : ctx.done = true)
    (hc : chanReady p.ch = false) :
    Await ctx p b = AwaitResult.returns default (some ctx.errVal) := by
  simp [Await, hc, hd]

/-- Concrete instance of the cancellation-first case. -/
theorem c7_cancellation_first_witness :
    Await { done := true, errVal := GoError.canceled } (newInitial Nat) true
      = AwaitResult.returns 0 (some GoError.canceled) :=
  c7_cancellation_first { done := true, errVal := GoError.canceled }
    (newInitial Nat) true rfl rfl

/-- Claim C8: the state field starts at pending when New allocates the
promise, the sequence of states along the goroutine's execution is monotone
(once it leaves pending it never changes again, so there is at most one
transition, to a single terminal state), and the pre-resolved constructors
write a terminal state directly. -/
theorem c8_state_monotonic {T : Type} [Inhabited T] (out : CallOutcome T)
    (v : T) (e : GoError) :
    (newInitial T).state = State.pending ∧
    monotone (statesAlong T out) = true ∧
    (Resolved v).state = State.fulfilled ∧
    (Rejected T e).state = State.rejected := by
  refine ⟨rfl, ?_, rfl, rfl⟩
  match out with
  | CallOutcome.ret w none => rfl
  | CallOutcome.ret w (some ee) => rfl
  | CallOutcome.panics (PanicPayload.errValue ee) => rfl
  | CallOutcome.panics (PanicPayload.nonError dd) => rfl

/-- Claim C9: whatever the work unit does, the goroutine's trace contains
exactly one channel close; and any prefix of the execution that already
contains the re-raised panic has the channel already closed, so waiters are
released even when a non-error panic propagates. -/
theorem c9_channel_closed_once {T : Type} [Inhabited T] (out : CallOutcome T) :
    (goroutineTrace out).countP (fun e => Event.isClose e) = 1 ∧
    ∀ n : Nat,
      ((goroutineTrace out).take n).any (fun e => Event.isRepanic e) = true →
      (runTrace (newInitial T) ((goroutineTrace out).take n)).ch = Chan.closed := by
  constructor
  · match out with
    | CallOutcome.ret w none => rfl
    | CallOutcome.ret w (some ee) => rfl
    | CallOutcome.panics (PanicPayload.errValue ee) => rfl
    | CallOutcome.panics (PanicPayload.nonError dd) => rfl
  · intro n h
    match out with
    | CallOutcome.ret w none =>
        have hall := any_of_take _ _ _ h
        simp [goroutineTrace, Event.isRepanic] at hall
    | CallOutcome.ret w (some ee) =>
        have hall := any_of_take _ _ _ h
        simp [goroutineTrace, Event.isRepanic] at hall
    | CallOutcome.panics (PanicPayload.errValue ee) =>
        have hall := any_of_take _ _ _ h
        simp [goroutineTrace, Event.isRepanic] at hall
    | CallOutcome.panics (PanicPayload.nonError dd) =>
        match n with
        | 0 => simp [goroutineTrace] at h
        | 1 => rfl
        | (m+2) => cases m <;> rfl

/-- Concrete instance of the channel-closed-before-repanic case. -/
theorem c9_channel_closed_once_witness :
    (runTrace (newInitial Nat) ((goroutineTrace
      (CallOutcome.panics (PanicPayload.nonError "boom"))).take 2)).ch
      = Chan.closed :=
  (c9_channel_closed_once (T := Nat)
    (CallOutcome.panics (PanicPayload.nonError "boom"))).2 2 (by decide)

/-- Claim C10: on a promise built by Resolved or Rejected the only exit from
Await is the cancellation branch: with a context whose cancellation fires,
Await returns the zero value and the context's own error (never the stored
value or stored error); with a context that never fires, Await blocks
forever on the nil channel. -/
theorem c10_pre_resolved_only_cancellation {T : Type} [Inhabited T] (v : T)
    (e : GoError) (ctx : Context) (b : Bool) :
    (ctx.done = true →
      Await ctx (Resolved v) b = AwaitResult.returns default (some ctx.errVal) ∧
      Await ctx (Rejected T e) b = AwaitResult.returns default (some ctx.errVal)) ∧
    (ctx.done = false →
      Await ctx (Resolved v) b = AwaitResult.blocks ∧
      Await ctx (Rejected T e) b = AwaitResult.blocks) := by
  constructor <;> intro h <;>
    exact ⟨by simp [Await, Resolved, chanReady, h],
      by simp [Await, Rejected, chanReady, h]⟩

/-- Concrete instance of the pre-resolved Await behaviour. -/
theorem c10_pre_resolved_only_cancellation_witness :
    Await background (Resolved (5 : Nat)) true = AwaitResult.blocks :=
  ((c10_pre_resolved_only_cancellation 5 GoError.canceled background true).2
    rfl).1

end PromiseSpec
